import Mathlib

/-!
Shallow embedding of the camera-access components of this repository.

The repository contains two variant implementations of the same
permission/lifecycle state machine:

* `CameraComponent` (source file `src/unnamed/part_000`): rich constraints
  (resolution/aspect hints) and an `OverconstrainedError` fallback retry.
  Embedded here with the suffix `C`.
* `SimpleCameraComponent` (source file `src/src/App.tsx`): facing-only
  constraints and a permission pre-flight query inside `startCamera`.
  Embedded here with the suffix `S`.

The host (browser) is modelled as a test double: an oracle answering each
`getUserMedia` call in sequence, plus a fixed permission-query answer.  Every
operation returns the successor component state, the successor host, and the
list of host-visible events of that invocation (stream requests, grants,
failures, track stops, permission queries), so that resource-accounting and
ordering properties can be stated over the event trace.

React state-update semantics: a handler reads the state variables captured by
its closure at render time; `setX` only affects later renders.  For every read
in these handlers the captured value coincides with the current value, with one
exception: `switchCamera` calls `setFacingMode(newFacingMode)` and then invokes
`startCamera` from the same closure, so that `startCamera` still reads the
*old* `facingMode`.  The embedding makes this explicit by passing the facing
value read by `startCamera` as a parameter of `startCameraCAux` /
`startCameraSAux`; `switchCamera` passes the pre-toggle value, exactly as the
closure does in the source.
-/

namespace Camera

inductive FacingMode
  | user
  | environment
deriving DecidableEq, Repr

inductive PermState
  | granted
  | denied
  | prompt
deriving DecidableEq, Repr

/-- A live media stream granted by the host: an identifier plus the number of
underlying hardware tracks (`stream.getTracks()` length on the double). -/
structure Stream where
  id : Nat
  nTracks : Nat
deriving DecidableEq, Repr

/-- The rich video constraints built by `getConstraints` in
`src/unnamed/part_000` (width/height ideal+max, aspect ideal 16/9). -/
structure RichVideo where
  facingMode : FacingMode
  widthIdeal : Nat
  widthMax : Nat
  heightIdeal : Nat
  heightMax : Nat
  aspectIdealNum : Nat
  aspectIdealDen : Nat
deriving DecidableEq, Repr

inductive VideoConstraint
  | rich (v : RichVideo)
  | facingOnly (f : FacingMode)
  | enabled (b : Bool)
deriving DecidableEq, Repr

structure Constraints where
  video : VideoConstraint
  audio : Bool
deriving DecidableEq, Repr

/-- `getConstraints` of `src/unnamed/part_000`. -/
def getConstraintsC (facing : FacingMode) : Constraints :=
  { video := .rich
      { facingMode := facing, widthIdeal := 1280, widthMax := 1920,
        heightIdeal := 720, heightMax := 1080,
        aspectIdealNum := 16, aspectIdealDen := 9 },
    audio := false }

/-- `getConstraints` of `src/src/App.tsx`. -/
def getConstraintsS (facing : FacingMode) : Constraints :=
  { video := .facingOnly facing, audio := false }

/-- The minimal fallback constraints `{ video: true, audio: false }` of the
`OverconstrainedError` branch in `src/unnamed/part_000`. -/
def basicConstraints : Constraints :=
  { video := .enabled true, audio := false }

/-- The `DOMException.name` values distinguished by the catch blocks. -/
inductive GUMError
  | NotAllowedError
  | NotFoundError
  | NotReadableError
  | OverconstrainedError
  | OtherError
deriving DecidableEq, Repr

/-- One host answer to a `getUserMedia` call on the test double. -/
inductive GUMResult
  | grant (nTracks : Nat)
  | deny (e : GUMError)
deriving DecidableEq, Repr

/-- Host-visible events recorded by the test double. -/
inductive Ev
  | gumReq (c : Constraints)
  | gumGrant (str : Stream)
  | gumFail (e : GUMError)
  | stopStream (str : Stream)
  | permQuery (p : PermState)
deriving DecidableEq, Repr

/-- The host / test double: capability flag, the permission-query answer, and
an oracle answering the n-th `getUserMedia` call.  Granted streams receive the
call index as their identifier. -/
structure Host where
  hasCamera : Bool
  permState : PermState
  oracle : Nat → GUMResult
  calls : Nat

/-- `navigator.mediaDevices.getUserMedia(constraints)` on the test double. -/
def gum (h : Host) (c : Constraints) : (GUMError ⊕ Stream) × Host × List Ev :=
  match h.oracle h.calls with
  | .grant n =>
      let str : Stream := { id := h.calls, nTracks := n }
      (Sum.inr str, { h with calls := h.calls + 1 },
        [Ev.gumReq c, Ev.gumGrant str])
  | .deny e =>
      (Sum.inl e, { h with calls := h.calls + 1 },
        [Ev.gumReq c, Ev.gumFail e])

/-- The React state of either component: `stream`, `isActive`, `error`,
`facingMode`, `isLoading`, `permissions`, plus the display-surface binding
`videoRef.current.srcObject`. -/
structure CamState where
  stream : Option Stream
  isActive : Bool
  error : String
  facingMode : FacingMode
  isLoading : Bool
  permissions : PermState
  videoSrc : Option Stream
deriving DecidableEq, Repr

/-- `if (stream) stream.getTracks().forEach(track => track.stop())` —
the stop events it produces on the double. -/
def stopHeld : Option Stream → List Ev
  | some str => [Ev.stopStream str]
  | none => []

def toggleFacing : FacingMode → FacingMode
  | .user => .environment
  | .environment => .user

/-- `startCamera` of `src/unnamed/part_000` (`CameraComponent`), with the
facing value read from the invoking closure passed explicitly (see the header
comment on stale closures).  The transient message set just before the
fallback attempt (`"Camera constraints not supported. Trying basic
settings..."`) is overwritten on both fallback outcomes before the handler
returns, so only the final value of `error` is recorded. -/
def startCameraCAux (facing : FacingMode) (s : CamState) (h : Host) :
    CamState × Host × List Ev :=
  if h.hasCamera = false then
    ({ s with error := "Camera not supported on this device" }, h, [])
  else
    let s1 := { s with isLoading := true, error := "" }
    let stopEvs := stopHeld s1.stream
    match gum h (getConstraintsC facing) with
    | (Sum.inr str, h1, gumEvs) =>
        ({ s1 with
            stream := some str, isActive := true,
            permissions := .granted, videoSrc := some str,
            isLoading := false }, h1, stopEvs ++ gumEvs)
    | (Sum.inl e, h1, gumEvs) =>
        match e with
        | .NotAllowedError =>
            ({ s1 with
                error := "Camera access denied. Please allow camera permissions.",
                permissions := .denied, isLoading := false },
              h1, stopEvs ++ gumEvs)
        | .NotFoundError =>
            ({ s1 with
                error := "No camera found on this device.",
                isLoading := false }, h1, stopEvs ++ gumEvs)
        | .NotReadableError =>
            ({ s1 with
                error := "Camera is already in use by another application.",
                isLoading := false }, h1, stopEvs ++ gumEvs)
        | .OverconstrainedError =>
            match gum h1 basicConstraints with
            | (Sum.inr str2, h2, gumEvs2) =>
                ({ s1 with
                    stream := some str2, isActive := true,
                    videoSrc := some str2, error := "",
                    isLoading := false }, h2, stopEvs ++ gumEvs ++ gumEvs2)
            | (Sum.inl _, h2, gumEvs2) =>
                ({ s1 with
                    error := "Unable to access camera with any settings.",
                    isLoading := false }, h2, stopEvs ++ gumEvs ++ gumEvs2)
        | .OtherError =>
            ({ s1 with
                error := "Unable to access camera. Please try again.",
                isLoading := false }, h1, stopEvs ++ gumEvs)

/-- `startCamera` invoked as a fresh event handler: the closure facing equals
the current state's facing. -/
def startCameraC (s : CamState) (h : Host) : CamState × Host × List Ev :=
  startCameraCAux s.facingMode s h

/-- `stopCamera` of `src/unnamed/part_000`. -/
def stopCameraC (s : CamState) (h : Host) : CamState × Host × List Ev :=
  match s.stream with
  | some str =>
      ({ s with stream := none, isActive := false, videoSrc := none },
        h, [Ev.stopStream str])
  | none =>
      ({ s with isActive := false, videoSrc := none }, h, [])

/-- `switchCamera` of `src/unnamed/part_000`: toggles the stored facing, and
when active re-invokes `startCamera` — whose closure still reads the
pre-toggle facing value. -/
def switchCameraC (s : CamState) (h : Host) : CamState × Host × List Ev :=
  let s1 := { s with facingMode := toggleFacing s.facingMode }
  if s.isActive then startCameraCAux s.facingMode s1 h
  else (s1, h, [])

/-- `startCamera` of `src/src/App.tsx` (`SimpleCameraComponent`): performs a
permission pre-flight query, returns early when it reports denied, has no
`OverconstrainedError` branch (that error falls into the final else), and the
`finally` clause clears `isLoading` on every path past the capability check. -/
def startCameraSAux (facing : FacingMode) (s : CamState) (h : Host) :
    CamState × Host × List Ev :=
  if h.hasCamera = false then
    ({ s with error := "Camera not supported on this device" }, h, [])
  else
    let s1 := { s with isLoading := true, error := "" }
    let ps := h.permState
    let s2 := { s1 with permissions := ps }
    if ps = .denied then
      ({ s2 with
          error := "Camera access denied. Please allow camera permissions.",
          isLoading := false }, h, [Ev.permQuery ps])
    else
      let stopEvs := stopHeld s2.stream
      match gum h (getConstraintsS facing) with
      | (Sum.inr str, h1, gumEvs) =>
          ({ s2 with
              stream := some str, isActive := true,
              permissions := .granted, videoSrc := some str,
              isLoading := false }, h1, Ev.permQuery ps :: (stopEvs ++ gumEvs))
      | (Sum.inl e, h1, gumEvs) =>
          match e with
          | .NotAllowedError =>
              ({ s2 with
                  error := "Camera access denied. Please allow camera permissions.",
                  permissions := .denied, isLoading := false },
                h1, Ev.permQuery ps :: (stopEvs ++ gumEvs))
          | .NotFoundError =>
              ({ s2 with
                  error := "No camera found on this device.",
                  isLoading := false }, h1, Ev.permQuery ps :: (stopEvs ++ gumEvs))
          | .NotReadableError =>
              ({ s2 with
                  error := "Camera is already in use by another application.",
                  isLoading := false }, h1, Ev.permQuery ps :: (stopEvs ++ gumEvs))
          | _ =>
              ({ s2 with
                  error := "Unable to access camera. Please try again.",
                  isLoading := false }, h1, Ev.permQuery ps :: (stopEvs ++ gumEvs))

def startCameraS (s : CamState) (h : Host) : CamState × Host × List Ev :=
  startCameraSAux s.facingMode s h

/-- `stopCamera` of `src/src/App.tsx` (also clears the error message). -/
def stopCameraS (s : CamState) (h : Host) : CamState × Host × List Ev :=
  match s.stream with
  | some str =>
      ({ s with
          stream := none, videoSrc := none, isActive := false,
          error := "" }, h, [Ev.stopStream str])
  | none =>
      ({ s with videoSrc := none, isActive := false, error := "" }, h, [])

/-- `switchCamera` of `src/src/App.tsx` (same stale-closure shape). -/
def switchCameraS (s : CamState) (h : Host) : CamState × Host × List Ev :=
  let s1 := { s with facingMode := toggleFacing s.facingMode }
  if s.isActive then startCameraSAux s.facingMode s1 h
  else (s1, h, [])

/-- The unmount cleanup of both variants:
`if (stream) stream.getTracks().forEach(track => track.stop())`. -/
def cleanupCamera (s : CamState) : List Ev :=
  stopHeld s.stream

/-- Track count of an optionally held stream. -/
def tracksOpt : Option Stream → Nat
  | some str => str.nTracks
  | none => 0

/-- Total number of `track.start` equivalents in a trace: each grant starts
all tracks of the granted stream. -/
def startsOf : List Ev → Nat
  | [] => 0
  | Ev.gumGrant str :: rest => str.nTracks + startsOf rest
  | _ :: rest => startsOf rest

/-- Total number of `track.stop()` calls recorded in a trace. -/
def stopsOf : List Ev → Nat
  | [] => 0
  | Ev.stopStream str :: rest => str.nTracks + stopsOf rest
  | _ :: rest => stopsOf rest

/-- The streams granted in a trace, in order. -/
def grantsOf : List Ev → List Stream
  | [] => []
  | Ev.gumGrant str :: rest => str :: grantsOf rest
  | _ :: rest => grantsOf rest

/-- The constraint sets of the `getUserMedia` requests in a trace, in order. -/
def reqsOf : List Ev → List Constraints
  | [] => []
  | Ev.gumReq c :: rest => c :: reqsOf rest
  | _ :: rest => reqsOf rest

/-- The set of granted-and-not-yet-stopped streams, updated by one event. -/
def stepLive (live : List Stream) : Ev → List Stream
  | Ev.gumGrant str => live ++ [str]
  | Ev.stopStream str => live.filter (fun t => t.id != str.id)
  | _ => live

def foldLive (live : List Stream) (evs : List Ev) : List Stream :=
  evs.foldl stepLive live

/-- `okFrom live evs` checks that, starting from the live set `live`, after
every event of `evs` at most one granted stream is still unstopped: no two
hardware grants are ever held simultaneously. -/
def okFrom (live : List Stream) : List Ev → Bool
  | [] => true
  | ev :: rest =>
      let l := stepLive live ev
      decide (l.length ≤ 1) && okFrom l rest

/-- User operations on the `CameraComponent` variant. -/
inductive Op
  | start
  | stop
  | switch
deriving DecidableEq, Repr

def runOp (s : CamState) (h : Host) : Op → CamState × Host × List Ev
  | .start => startCameraC s h
  | .stop => stopCameraC s h
  | .switch => switchCameraC s h

/-- Run a sequence of user operations, concatenating the event traces. -/
def runOps (s : CamState) (h : Host) : List Op → CamState × Host × List Ev
  | [] => (s, h, [])
  | op :: rest =>
      match runOp s h op with
      | (s1, h1, evs1) =>
          match runOps s1 h1 rest with
          | (s2, h2, evs2) => (s2, h2, evs1 ++ evs2)

/-- The same user operations dispatched to the `SimpleCameraComponent`
variant. -/
def runOpS (s : CamState) (h : Host) : Op → CamState × Host × List Ev
  | .start => startCameraS s h
  | .stop => stopCameraS s h
  | .switch => switchCameraS s h

/-- Run a sequence of user operations on the `SimpleCameraComponent`,
concatenating the event traces. -/
def runOpsS (s : CamState) (h : Host) : List Op → CamState × Host × List Ev
  | [] => (s, h, [])
  | op :: rest =>
      match runOpS s h op with
      | (s1, h1, evs1) =>
          match runOpsS s1 h1 rest with
          | (s2, h2, evs2) => (s2, h2, evs1 ++ evs2)

/-- The initial React state of both components. -/
def initState : CamState :=
  { stream := none, isActive := false, error := "", facingMode := .user,
    isLoading := false, permissions := .prompt, videoSrc := none }

def mkHost (cam : Bool) (ps : PermState) (ora : Nat → GUMResult) : Host :=
  { hasCamera := cam, permState := ps, oracle := ora, calls := 0 }

end Camera

namespace Camera

/-! ### Concrete states and hosts used in witnesses and counterexamples -/

def str01 : Stream := { id := 0, nTracks := 1 }

/-- An active session holding stream 0 with one track, facing front. -/
def frontActiveState : CamState :=
  { stream := some str01, isActive := true, error := "",
    facingMode := .user, isLoading := false, permissions := .granted,
    videoSrc := some str01 }

/-- Host that grants every request with a one-track stream. -/
def grantingHost : Host :=
  { hasCamera := true, permState := .prompt, oracle := fun _ => .grant 1,
    calls := 1 }

def notFoundHost : Host :=
  { hasCamera := true, permState := .prompt,
    oracle := fun _ => .deny .NotFoundError, calls := 1 }

def overHost : Host :=
  { hasCamera := true, permState := .prompt,
    oracle := fun _ => .deny .OverconstrainedError, calls := 0 }

def fallbackGrantHost : Host :=
  { hasCamera := true, permState := .prompt,
    oracle := fun n => if n = 0 then .deny .OverconstrainedError else .grant 1,
    calls := 0 }

/-- Relation between the component state and the set of unstopped grants:
either nothing is live, or exactly the stream currently stored in the state
is. -/
def SessionInv (st : Option Stream) (live : List Stream) : Prop :=
  live = [] ∨ ∃ str, live = [str] ∧ st = some str

/-! ### Path lemmas for `startCameraCAux` (`CameraComponent`) -/

lemma startCameraCAux_noCam (facing : FacingMode) (s : CamState) (h : Host)
    (hcam : h.hasCamera = false) :
    startCameraCAux facing s h
      = ({ s with error := "Camera not supported on this device" }, h, []) := by
  simp [startCameraCAux, hcam]

lemma startCameraCAux_grant (facing : FacingMode) (s : CamState) (h : Host)
    (n : Nat) (hcam : h.hasCamera = true)
    (hor : h.oracle h.calls = .grant n) :
    startCameraCAux facing s h
      = ({ s with
            stream := some { id := h.calls, nTracks := n }, isActive := true,
            error := "", permissions := .granted,
            videoSrc := some { id := h.calls, nTracks := n },
            isLoading := false },
         { h with calls := h.calls + 1 },
         stopHeld s.stream
           ++ [Ev.gumReq (getConstraintsC facing),
               Ev.gumGrant { id := h.calls, nTracks := n }]) := by
  simp [startCameraCAux, gum, hcam, hor]

lemma startCameraCAux_denyNA (facing : FacingMode) (s : CamState) (h : Host)
    (hcam : h.hasCamera = true)
    (hor : h.oracle h.calls = .deny .NotAllowedError) :
    startCameraCAux facing s h
      = ({ s with
            error := "Camera access denied. Please allow camera permissions.",
            permissions := .denied, isLoading := false },
         { h with calls := h.calls + 1 },
         stopHeld s.stream
           ++ [Ev.gumReq (getConstraintsC facing),
               Ev.gumFail .NotAllowedError]) := by
  simp [startCameraCAux, gum, hcam, hor]

lemma startCameraCAux_denyNF (facing : FacingMode) (s : CamState) (h : Host)
    (hcam : h.hasCamera = true)
    (hor : h.oracle h.calls = .deny .NotFoundError) :
    startCameraCAux facing s h
      = ({ s with error := "No camera found on this device.", isLoading := false },
         { h with calls := h.calls + 1 },
         stopHeld s.stream
           ++ [Ev.gumReq (getConstraintsC facing),
               Ev.gumFail .NotFoundError]) := by
  simp [startCameraCAux, gum, hcam, hor]

lemma startCameraCAux_denyNR (facing : FacingMode) (s : CamState) (h : Host)
    (hcam : h.hasCamera = true)
    (hor : h.oracle h.calls = .deny .NotReadableError) :
    startCameraCAux facing s h
      = ({ s with
            error := "Camera is already in use by another application.",
            isLoading := false },
         { h with calls := h.calls + 1 },
         stopHeld s.stream
           ++ [Ev.gumReq (getConstraintsC facing),
               Ev.gumFail .NotReadableError]) := by
  simp [startCameraCAux, gum, hcam, hor]

lemma startCameraCAux_denyOther (facing : FacingMode) (s : CamState) (h : Host)
    (hcam : h.hasCamera = true)
    (hor : h.oracle h.calls = .deny .OtherError) :
    startCameraCAux facing s h
      = ({ s with
            error := "Unable to access camera. Please try again.",
            isLoading := false },
         { h with calls := h.calls + 1 },
         stopHeld s.stream
           ++ [Ev.gumReq (getConstraintsC facing),
               Ev.gumFail .OtherError]) := by
  simp [startCameraCAux, gum, hcam, hor]

lemma startCameraCAux_overGrant (facing : FacingMode) (s : CamState) (h : Host)
    (n : Nat) (hcam : h.hasCamera = true)
    (hor : h.oracle h.calls = .deny .OverconstrainedError)
    (hor2 : h.oracle (h.calls + 1) = .grant n) :
    startCameraCAux facing s h
      = ({ s with
            stream := some { id := h.calls + 1, nTracks := n },
            isActive := true,
            videoSrc := some { id := h.calls + 1, nTracks := n },
            error := "", isLoading := false },
         { h with calls := h.calls + 2 },
         stopHeld s.stream
           ++ [Ev.gumReq (getConstraintsC facing),
               Ev.gumFail .OverconstrainedError,
               Ev.gumReq basicConstraints,
               Ev.gumGrant { id := h.calls + 1, nTracks := n }]) := by
  simp [startCameraCAux, gum, hcam, hor, hor2]

lemma startCameraCAux_overDeny (facing : FacingMode) (s : CamState) (h : Host)
    (e2 : GUMError) (hcam : h.hasCamera = true)
    (hor : h.oracle h.calls = .deny .OverconstrainedError)
    (hor2 : h.oracle (h.calls + 1) = .deny e2) :
    startCameraCAux facing s h
      = ({ s with
            error := "Unable to access camera with any settings.",
            isLoading := false },
         { h with calls := h.calls + 2 },
         stopHeld s.stream
           ++ [Ev.gumReq (getConstraintsC facing),
               Ev.gumFail .OverconstrainedError,
               Ev.gumReq basicConstraints,
               Ev.gumFail e2]) := by
  simp [startCameraCAux, gum, hcam, hor, hor2]

end Camera

namespace Camera

/-! ### Path lemmas for `startCameraSAux` (`SimpleCameraComponent`) -/

lemma startCameraSAux_noCam (facing : FacingMode) (s : CamState) (h : Host)
    (hcam : h.hasCamera = false) :
    startCameraSAux facing s h
      = ({ s with error := "Camera not supported on this device" }, h, []) := by
  simp [startCameraSAux, hcam]

lemma startCameraSAux_denied (facing : FacingMode) (s : CamState) (h : Host)
    (hcam : h.hasCamera = true) (hps : h.permState = .denied) :
    startCameraSAux facing s h
      = ({ s with
            error := "Camera access denied. Please allow camera permissions.",
            permissions := .denied, isLoading := false },
         h, [Ev.permQuery .denied]) := by
  simp [startCameraSAux, hcam, hps]

lemma startCameraSAux_grant (facing : FacingMode) (s : CamState) (h : Host)
    (n : Nat) (hcam : h.hasCamera = true) (hps : ¬ h.permState = .denied)
    (hor : h.oracle h.calls = .grant n) :
    startCameraSAux facing s h
      = ({ s with
            stream := some { id := h.calls, nTracks := n }, isActive := true,
            error := "", permissions := .granted,
            videoSrc := some { id := h.calls, nTracks := n },
            isLoading := false },
         { h with calls := h.calls + 1 },
         Ev.permQuery h.permState
           :: (stopHeld s.stream
                ++ [Ev.gumReq (getConstraintsS facing),
                    Ev.gumGrant { id := h.calls, nTracks := n }])) := by
  simp [startCameraSAux, gum, hcam, hps, hor]

lemma startCameraSAux_denyNA (facing : FacingMode) (s : CamState) (h : Host)
    (hcam : h.hasCamera = true) (hps : ¬ h.permState = .denied)
    (hor : h.oracle h.calls = .deny .NotAllowedError) :
    startCameraSAux facing s h
      = ({ s with
            error := "Camera access denied. Please allow camera permissions.",
            permissions := .denied, isLoading := false },
         { h with calls := h.calls + 1 },
         Ev.permQuery h.permState
           :: (stopHeld s.stream
                ++ [Ev.gumReq (getConstraintsS facing),
                    Ev.gumFail .NotAllowedError])) := by
  simp [startCameraSAux, gum, hcam, hps, hor]

lemma startCameraSAux_denyNF (facing : FacingMode) (s : CamState) (h : Host)
    (hcam : h.hasCamera = true) (hps : ¬ h.permState = .denied)
    (hor : h.oracle h.calls = .deny .NotFoundError) :
    startCameraSAux facing s h
      = ({ s with
            error := "No camera found on this device.",
            permissions := h.permState, isLoading := false },
         { h with calls := h.calls + 1 },
         Ev.permQuery h.permState
           :: (stopHeld s.stream
                ++ [Ev.gumReq (getConstraintsS facing),
                    Ev.gumFail .NotFoundError])) := by
  simp [startCameraSAux, gum, hcam, hps, hor]

lemma startCameraSAux_denyNR (facing : FacingMode) (s : CamState) (h : Host)
    (hcam : h.hasCamera = true) (hps : ¬ h.permState = .denied)
    (hor : h.oracle h.calls = .deny .NotReadableError) :
    startCameraSAux facing s h
      = ({ s with
            error := "Camera is already in use by another application.",
            permissions := h.permState, isLoading := false },
         { h with calls := h.calls + 1 },
         Ev.permQuery h.permState
           :: (stopHeld s.stream
                ++ [Ev.gumReq (getConstraintsS facing),
                    Ev.gumFail .NotReadableError])) := by
  simp [startCameraSAux, gum, hcam, hps, hor]

lemma startCameraSAux_denyOver (facing : FacingMode) (s : CamState) (h : Host)
    (hcam : h.hasCamera = true) (hps : ¬ h.permState = .denied)
    (hor : h.oracle h.calls = .deny .OverconstrainedError) :
    startCameraSAux facing s h
      = ({ s with
            error := "Unable to access camera. Please try again.",
            permissions := h.permState, isLoading := false },
         { h with calls := h.calls + 1 },
         Ev.permQuery h.permState
           :: (stopHeld s.stream
                ++ [Ev.gumReq (getConstraintsS facing),
                    Ev.gumFail .OverconstrainedError])) := by
  simp [startCameraSAux, gum, hcam, hps, hor]

lemma startCameraSAux_denyOther (facing : FacingMode) (s : CamState) (h : Host)
    (hcam : h.hasCamera = true) (hps : ¬ h.permState = .denied)
    (hor : h.oracle h.calls = .deny .OtherError) :
    startCameraSAux facing s h
      = ({ s with
            error := "Unable to access camera. Please try again.",
            permissions := h.permState, isLoading := false },
         { h with calls := h.calls + 1 },
         Ev.permQuery h.permState
           :: (stopHeld s.stream
                ++ [Ev.gumReq (getConstraintsS facing),
                    Ev.gumFail .OtherError])) := by
  simp [startCameraSAux, gum, hcam, hps, hor]

end Camera

namespace Camera

/-! ### Trace accounting lemmas -/

lemma reqsOf_append (a b : List Ev) : reqsOf (a ++ b) = reqsOf a ++ reqsOf b := by
  induction a with
  | nil => simp [reqsOf]
  | cons ev rest ih => cases ev <;> simp [reqsOf, ih]

lemma grantsOf_append (a b : List Ev) :
    grantsOf (a ++ b) = grantsOf a ++ grantsOf b := by
  induction a with
  | nil => simp [grantsOf]
  | cons ev rest ih => cases ev <;> simp [grantsOf, ih]

lemma startsOf_append (a b : List Ev) :
    startsOf (a ++ b) = startsOf a + startsOf b := by
  induction a with
  | nil => simp [startsOf]
  | cons ev rest ih => cases ev <;> simp [startsOf, ih, Nat.add_assoc]

lemma stopsOf_append (a b : List Ev) :
    stopsOf (a ++ b) = stopsOf a + stopsOf b := by
  induction a with
  | nil => simp [stopsOf]
  | cons ev rest ih => cases ev <;> simp [stopsOf, ih, Nat.add_assoc]

lemma reqsOf_stopHeld (o : Option Stream) : reqsOf (stopHeld o) = [] := by
  cases o <;> simp [stopHeld, reqsOf]

lemma grantsOf_stopHeld (o : Option Stream) : grantsOf (stopHeld o) = [] := by
  cases o <;> simp [stopHeld, grantsOf]

lemma startsOf_stopHeld (o : Option Stream) : startsOf (stopHeld o) = 0 := by
  cases o <;> simp [stopHeld, startsOf]

lemma stopsOf_stopHeld (o : Option Stream) :
    stopsOf (stopHeld o) = tracksOpt o := by
  cases o <;> simp [stopHeld, stopsOf, tracksOpt]

end Camera

namespace Camera

/-- The constraints of the first `getUserMedia` request a `CameraComponent`
`startCamera` invocation issues: the rich constraints built from the state's
current facing mode (and no request at all without capture support). -/
lemma startCameraC_firstReq (s : CamState) (h : Host) :
    (reqsOf (startCameraC s h).2.2).head?
      = if h.hasCamera = true then some (getConstraintsC s.facingMode)
        else none := by
  cases hcam : h.hasCamera
  · rw [startCameraC, startCameraCAux_noCam _ _ _ hcam]
    simp [reqsOf]
  · cases hor : h.oracle h.calls with
    | grant n =>
        rw [startCameraC, startCameraCAux_grant _ _ _ _ hcam hor]
        simp [reqsOf_append, reqsOf_stopHeld, reqsOf]
    | deny e =>
        cases e
        case NotAllowedError =>
          rw [startCameraC, startCameraCAux_denyNA _ _ _ hcam hor]
          simp [reqsOf_append, reqsOf_stopHeld, reqsOf]
        case NotFoundError =>
          rw [startCameraC, startCameraCAux_denyNF _ _ _ hcam hor]
          simp [reqsOf_append, reqsOf_stopHeld, reqsOf]
        case NotReadableError =>
          rw [startCameraC, startCameraCAux_denyNR _ _ _ hcam hor]
          simp [reqsOf_append, reqsOf_stopHeld, reqsOf]
        case OtherError =>
          rw [startCameraC, startCameraCAux_denyOther _ _ _ hcam hor]
          simp [reqsOf_append, reqsOf_stopHeld, reqsOf]
        case OverconstrainedError =>
          cases hor2 : h.oracle (h.calls + 1) with
          | grant n =>
              rw [startCameraC, startCameraCAux_overGrant _ _ _ _ hcam hor hor2]
              simp [reqsOf_append, reqsOf_stopHeld, reqsOf]
          | deny e2 =>
              rw [startCameraC, startCameraCAux_overDeny _ _ _ _ hcam hor hor2]
              simp [reqsOf_append, reqsOf_stopHeld, reqsOf]

/-- C2: from every component state, the unmount cleanup stops exactly the
tracks of the currently held session (and is silent when none is held); the
explicit `stopCamera` paths of both variants likewise stop every held track
and clear the handle. -/
theorem teardownStopsAllTracks (s : CamState) (h : Host) :
    stopsOf (cleanupCamera s) = tracksOpt s.stream
    ∧ cleanupCamera s
        = (match s.stream with
           | some str => [Ev.stopStream str]
           | none => [])
    ∧ stopsOf (stopCameraC s h).2.2 = tracksOpt s.stream
    ∧ ((stopCameraC s h).1).stream = none
    ∧ stopsOf (stopCameraS s h).2.2 = tracksOpt s.stream
    ∧ ((stopCameraS s h).1).stream = none := by
  cases hs : s.stream <;>
    simp [cleanupCamera, stopHeld, stopCameraC, stopCameraS, stopsOf,
      tracksOpt, hs]

/-- C8 (amended): `release` run twice from any state equals `release` run
once — the second call changes nothing and emits no host event — and from a
state holding no session, `release` leaves the stream handle untouched and
only resets `isActive` and the display binding (the `App.tsx` variant also
clears the error message), making no host call. -/
theorem releaseIdempotent (s : CamState) (h : Host) :
    stopCameraC (stopCameraC s h).1 (stopCameraC s h).2.1
      = ((stopCameraC s h).1, (stopCameraC s h).2.1, [])
    ∧ stopCameraS (stopCameraS s h).1 (stopCameraS s h).2.1
      = ((stopCameraS s h).1, (stopCameraS s h).2.1, [])
    ∧ stopCameraC { s with stream := none } h
      = ({ s with stream := none, isActive := false, videoSrc := none }, h, [])
    ∧ stopCameraS { s with stream := none } h
      = ({ s with
            stream := none, videoSrc := none, isActive := false,
            error := "" }, h, []) := by
  cases hs : s.stream <;> simp [stopCameraC, stopCameraS, hs]

/-- C8 counterexample: in the `App.tsx` variant, calling `stopCamera` while no
session is active is not a no-op — it clears a pending error message, so the
state changes. -/
theorem releaseClearsErrorCex :
    (stopCameraS { initState with error := "No camera found on this device." }
        grantingHost).1
      ≠ { initState with error := "No camera found on this device." }
    ∧ (stopCameraS { initState with error := "No camera found on this device." }
        grantingHost).1.error = ""
    ∧ ({ initState with
          error := "No camera found on this device." } : CamState).stream
      = none := by
  refine ⟨by decide, rfl, rfl⟩

/-- C9: when no session is active, `switchCamera` (both variants) only
toggles the stored facing preference, leaves every other state field, the
host, and the event trace untouched, and the next `startCamera` issues its
host request with the toggled facing. -/
theorem switchInactiveTogglesOnly (s : CamState) (h h2 : Host) :
    switchCameraC { s with isActive := false } h
      = ({ s with
            isActive := false,
            facingMode := toggleFacing s.facingMode }, h, [])
    ∧ switchCameraS { s with isActive := false } h
      = ({ s with
            isActive := false,
            facingMode := toggleFacing s.facingMode }, h, [])
    ∧ (reqsOf (startCameraC
          (switchCameraC { s with isActive := false } h).1 h2).2.2).head?
        = (if h2.hasCamera = true
           then some (getConstraintsC (toggleFacing s.facingMode))
           else none) := by
  refine ⟨by simp [switchCameraC], by simp [switchCameraS], ?_⟩
  have h1 : (switchCameraC { s with isActive := false } h).1
      = { s with isActive := false, facingMode := toggleFacing s.facingMode } := by
    simp [switchCameraC]
  rw [h1, startCameraC_firstReq]

/-- C10: in the `App.tsx` variant, when the pre-flight permission query
reports denied, `startCamera` records the error message and
`permission = denied` and returns before any host stream request and before
stopping anything: the held stream, the active flag, the display binding and
the host are all left unchanged, and the only host interaction is the
permission query itself. -/
theorem preflightDeniedFrame (s : CamState) (h : Host) :
    startCameraS s { h with hasCamera := true, permState := .denied }
      = ({ s with
            error := "Camera access denied. Please allow camera permissions.",
            permissions := .denied, isLoading := false },
         { h with hasCamera := true, permState := .denied },
         [Ev.permQuery .denied]) := by
  simp only [startCameraS]
  exact startCameraSAux_denied s.facingMode s _ rfl rfl

end Camera

namespace Camera

/-- C4 (code bug): from an active front-facing session, `switchCamera` with a
granting host performs exactly one release followed by one acquire, and the
final state is active with the stored facing toggled to back — but the host
request it issues carries the stale front facing (`user`): `startCamera` reads
the `facingMode` captured by its closure before `setFacingMode` took effect,
so the request constraints are not the back-facing ones. -/
theorem switchStaleFacingBug :
    (switchCameraC frontActiveState grantingHost).2.2
      = [Ev.stopStream str01,
         Ev.gumReq (getConstraintsC FacingMode.user),
         Ev.gumGrant { id := 1, nTracks := 1 }]
    ∧ (switchCameraC frontActiveState grantingHost).1.facingMode
        = FacingMode.environment
    ∧ (switchCameraC frontActiveState grantingHost).1.isActive = true
    ∧ getConstraintsC FacingMode.user ≠ getConstraintsC FacingMode.environment :=
  ⟨rfl, rfl, rfl, by decide⟩

/-- C6 (code bug): `startCamera` contains no busy-flag guard — invoked from a
state with `isLoading = true` it is neither rejected nor queued: it behaves
exactly as from the non-loading state, stopping the held tracks and issuing a
new host stream request. -/
theorem noBusyGuard :
    ({ frontActiveState with isLoading := true } : CamState).isLoading = true
    ∧ (startCameraC { frontActiveState with isLoading := true }
          grantingHost).2.2
        = [Ev.stopStream str01,
           Ev.gumReq (getConstraintsC FacingMode.user),
           Ev.gumGrant { id := 1, nTracks := 1 }]
    ∧ startCameraC { frontActiveState with isLoading := true } grantingHost
        = startCameraC frontActiveState grantingHost :=
  ⟨rfl, rfl, rfl⟩

/-- C5 counterexample: in the `App.tsx` variant an acquire failing with
`OverconstrainedError` triggers no retry at all — exactly one host request is
made and the generic catch-all message is surfaced — refuting the claim for
"every acquire invocation". -/
theorem simpleVariantNoFallbackCex :
    (reqsOf (startCameraS initState overHost).2.2).length = 1
    ∧ (startCameraS initState overHost).1.error
        = "Unable to access camera. Please try again."
    ∧ (startCameraS initState overHost).1.isActive = false :=
  ⟨rfl, rfl, rfl⟩

/-- C5 (amended to the `CameraComponent` variant): when the first attempt
fails with `OverconstrainedError`, exactly one automatic retry is made and its
constraint set is the minimal `{ video: true, audio: false }`; if the retry
also fails the surfaced error is the catch-all unavailable message, and the
session flags are untouched; if the retry succeeds the session becomes
active. -/
theorem fallbackRetryPolicy (s : CamState) (h : Host)
    (hcam : h.hasCamera = true)
    (hor : h.oracle h.calls = .deny .OverconstrainedError) :
    reqsOf (startCameraC s h).2.2
      = [getConstraintsC s.facingMode, basicConstraints]
    ∧ ((startCameraC s h).1).error
        = (match h.oracle (h.calls + 1) with
           | .grant _ => ""
           | .deny _ => "Unable to access camera with any settings.")
    ∧ ((startCameraC s h).1).isActive
        = (match h.oracle (h.calls + 1) with
           | .grant _ => true
           | .deny _ => s.isActive) := by
  cases hor2 : h.oracle (h.calls + 1) with
  | grant n =>
      rw [startCameraC, startCameraCAux_overGrant _ _ _ _ hcam hor hor2]
      simp [reqsOf_append, reqsOf_stopHeld, reqsOf, hor2]
  | deny e2 =>
      rw [startCameraC, startCameraCAux_overDeny _ _ _ _ hcam hor hor2]
      simp [reqsOf_append, reqsOf_stopHeld, reqsOf, hor2]

/-- Witness for C5 at a concrete overconstrained host. -/
theorem fallbackRetryPolicy_witness :
    reqsOf (startCameraC initState overHost).2.2
      = [getConstraintsC initState.facingMode, basicConstraints]
    ∧ ((startCameraC initState overHost).1).error
        = (match overHost.oracle (overHost.calls + 1) with
           | .grant _ => ""
           | .deny _ => "Unable to access camera with any settings.")
    ∧ ((startCameraC initState overHost).1).isActive
        = (match overHost.oracle (overHost.calls + 1) with
           | .grant _ => true
           | .deny _ => initState.isActive) :=
  fallbackRetryPolicy initState overHost rfl rfl

/-- C7 counterexample: an acquire that succeeds through the fallback attempt
does not set `permission = granted` — in `CameraComponent` the fallback
success path omits `setPermissions`, leaving the stored permission at
`prompt`. -/
theorem fallbackKeepsPermissionCex :
    (startCameraC initState fallbackGrantHost).1.isActive = true
    ∧ (startCameraC initState fallbackGrantHost).1.permissions
        = PermState.prompt
    ∧ (startCameraC initState fallbackGrantHost).1.permissions
        ≠ PermState.granted :=
  ⟨rfl, rfl, by decide⟩

/-- C7 (amended): the exact permission mutation of one acquire.  In
`CameraComponent`: a successful primary attempt sets granted, a
`NotAllowedError` sets denied, and every other outcome — including a
successful or failed fallback attempt — leaves the stored permission
unchanged.  In `SimpleCameraComponent`: the pre-flight query first overwrites
the stored permission with the host-reported state; a denied report
short-circuits to denied, otherwise a successful attempt sets granted, a
`NotAllowedError` sets denied, and any other failure leaves the host-reported
value in place. -/
theorem permissionMutation (s : CamState) (h : Host) :
    ((startCameraC s { h with hasCamera := true }).1).permissions
      = (match h.oracle h.calls with
         | .grant _ => PermState.granted
         | .deny .NotAllowedError => PermState.denied
         | .deny _ => s.permissions)
    ∧ ((startCameraS s { h with hasCamera := true }).1).permissions
      = (if h.permState = .denied then PermState.denied
         else
           match h.oracle h.calls with
           | .grant _ => PermState.granted
           | .deny .NotAllowedError => PermState.denied
           | .deny _ => h.permState) := by
  constructor
  · cases hor : h.oracle h.calls with
    | grant n =>
        rw [startCameraC, startCameraCAux_grant s.facingMode s { h with hasCamera := true } n rfl hor]
    | deny e =>
        cases e with
        | NotAllowedError =>
          rw [startCameraC, startCameraCAux_denyNA s.facingMode s { h with hasCamera := true } rfl hor]
        | NotFoundError =>
          rw [startCameraC, startCameraCAux_denyNF s.facingMode s { h with hasCamera := true } rfl hor]
        | NotReadableError =>
          rw [startCameraC, startCameraCAux_denyNR s.facingMode s { h with hasCamera := true } rfl hor]
        | OtherError =>
          rw [startCameraC, startCameraCAux_denyOther s.facingMode s { h with hasCamera := true } rfl hor]
        | OverconstrainedError =>
          cases hor2 : h.oracle (h.calls + 1) with
          | grant n =>
              rw [startCameraC,
                startCameraCAux_overGrant s.facingMode s { h with hasCamera := true } n rfl hor hor2]
          | deny e2 =>
              rw [startCameraC,
                startCameraCAux_overDeny s.facingMode s { h with hasCamera := true } e2 rfl hor hor2]
  · by_cases hps : h.permState = .denied
    · rw [startCameraS, startCameraSAux_denied s.facingMode s { h with hasCamera := true } rfl hps]
      simp [hps]
    · cases hor : h.oracle h.calls with
      | grant n =>
          rw [startCameraS, startCameraSAux_grant s.facingMode s { h with hasCamera := true } n rfl hps hor]
          simp [hps, hor]
      | deny e =>
          cases e with
          | NotAllowedError =>
            rw [startCameraS, startCameraSAux_denyNA s.facingMode s { h with hasCamera := true } rfl hps hor]
            simp [hps, hor]
          | NotFoundError =>
            rw [startCameraS, startCameraSAux_denyNF s.facingMode s { h with hasCamera := true } rfl hps hor]
            simp [hps, hor]
          | NotReadableError =>
            rw [startCameraS, startCameraSAux_denyNR s.facingMode s { h with hasCamera := true } rfl hps hor]
            simp [hps, hor]
          | OverconstrainedError =>
            rw [startCameraS, startCameraSAux_denyOver s.facingMode s { h with hasCamera := true } rfl hps hor]
            simp [hps, hor]
          | OtherError =>
            rw [startCameraS, startCameraSAux_denyOther s.facingMode s { h with hasCamera := true } rfl hps hor]
            simp [hps, hor]

end Camera

namespace Camera

/-- C1 counterexample: an acquire that fails (no grant at all in its trace)
invoked while a session was active leaves `isActive = true` — the catch
branches never reset the active flag — refuting the claim "regardless of
whether a session was active when it was invoked". -/
theorem acquireFailureActiveCex :
    grantsOf (startCameraC frontActiveState notFoundHost).2.2 = []
    ∧ (startCameraC frontActiveState notFoundHost).1.isActive = true
    ∧ frontActiveState.isActive = true :=
  ⟨rfl, rfl, rfl⟩

/-- C1 (amended): for every acquire invocation that ends in failure (its
event trace contains no grant), no attempt of that acquire started any track
(so trivially every track it started has been stopped), the active flag and
the stream handle are left exactly as they were at invocation — in particular
`isActive` is false after a failed acquire only when no session was active at
invocation — and, with capture support, the only stop calls are the ones
releasing the previously held session's tracks. -/
theorem acquireFailureCleanup (s : CamState) (h : Host) :
    (grantsOf (startCameraC s h).2.2 = [] →
      startsOf (startCameraC s h).2.2 = 0
      ∧ ((startCameraC s h).1).isActive = s.isActive
      ∧ ((startCameraC s h).1).stream = s.stream
      ∧ (h.hasCamera = true →
          stopsOf (startCameraC s h).2.2 = tracksOpt s.stream))
    ∧ (grantsOf (startCameraS s h).2.2 = [] →
      startsOf (startCameraS s h).2.2 = 0
      ∧ ((startCameraS s h).1).isActive = s.isActive
      ∧ ((startCameraS s h).1).stream = s.stream) := by
  constructor
  · intro hfail
    cases hcam : h.hasCamera
    · rw [startCameraC, startCameraCAux_noCam _ _ _ hcam]
      refine ⟨rfl, rfl, rfl, ?_⟩
      intro hc
      exact Bool.noConfusion hc
    · cases hor : h.oracle h.calls with
      | grant n =>
          rw [startCameraC, startCameraCAux_grant _ _ _ _ hcam hor] at hfail
          simp [grantsOf_append, grantsOf_stopHeld, grantsOf] at hfail
      | deny e =>
          cases e with
          | NotAllowedError =>
              rw [startCameraC, startCameraCAux_denyNA _ _ _ hcam hor]
              exact ⟨by simp [startsOf_append, startsOf_stopHeld, startsOf],
                rfl, rfl,
                fun _ => by simp [stopsOf_append, stopsOf_stopHeld, stopsOf]⟩
          | NotFoundError =>
              rw [startCameraC, startCameraCAux_denyNF _ _ _ hcam hor]
              exact ⟨by simp [startsOf_append, startsOf_stopHeld, startsOf],
                rfl, rfl,
                fun _ => by simp [stopsOf_append, stopsOf_stopHeld, stopsOf]⟩
          | NotReadableError =>
              rw [startCameraC, startCameraCAux_denyNR _ _ _ hcam hor]
              exact ⟨by simp [startsOf_append, startsOf_stopHeld, startsOf],
                rfl, rfl,
                fun _ => by simp [stopsOf_append, stopsOf_stopHeld, stopsOf]⟩
          | OtherError =>
              rw [startCameraC, startCameraCAux_denyOther _ _ _ hcam hor]
              exact ⟨by simp [startsOf_append, startsOf_stopHeld, startsOf],
                rfl, rfl,
                fun _ => by simp [stopsOf_append, stopsOf_stopHeld, stopsOf]⟩
          | OverconstrainedError =>
              cases hor2 : h.oracle (h.calls + 1) with
              | grant n =>
                  rw [startCameraC,
                    startCameraCAux_overGrant _ _ _ _ hcam hor hor2] at hfail
                  simp [grantsOf_append, grantsOf_stopHeld, grantsOf] at hfail
              | deny e2 =>
                  rw [startCameraC,
                    startCameraCAux_overDeny _ _ _ _ hcam hor hor2]
                  exact ⟨by simp [startsOf_append, startsOf_stopHeld, startsOf],
                    rfl, rfl,
                    fun _ => by
                      simp [stopsOf_append, stopsOf_stopHeld, stopsOf]⟩
  · intro hfail
    cases hcam : h.hasCamera
    · rw [startCameraS, startCameraSAux_noCam _ _ _ hcam]
      exact ⟨rfl, rfl, rfl⟩
    · by_cases hps : h.permState = .denied
      · rw [startCameraS, startCameraSAux_denied _ _ _ hcam hps]
        exact ⟨rfl, rfl, rfl⟩
      · cases hor : h.oracle h.calls with
        | grant n =>
            rw [startCameraS, startCameraSAux_grant _ _ _ _ hcam hps hor] at hfail
            simp [grantsOf_append, grantsOf_stopHeld, grantsOf] at hfail
        | deny e =>
            cases e with
            | NotAllowedError =>
                rw [startCameraS, startCameraSAux_denyNA _ _ _ hcam hps hor]
                exact ⟨by simp [grantsOf, startsOf, startsOf_append,
                  startsOf_stopHeld], rfl, rfl⟩
            | NotFoundError =>
                rw [startCameraS, startCameraSAux_denyNF _ _ _ hcam hps hor]
                exact ⟨by simp [grantsOf, startsOf, startsOf_append,
                  startsOf_stopHeld], rfl, rfl⟩
            | NotReadableError =>
                rw [startCameraS, startCameraSAux_denyNR _ _ _ hcam hps hor]
                exact ⟨by simp [grantsOf, startsOf, startsOf_append,
                  startsOf_stopHeld], rfl, rfl⟩
            | OverconstrainedError =>
                rw [startCameraS, startCameraSAux_denyOver _ _ _ hcam hps hor]
                exact ⟨by simp [grantsOf, startsOf, startsOf_append,
                  startsOf_stopHeld], rfl, rfl⟩
            | OtherError =>
                rw [startCameraS, startCameraSAux_denyOther _ _ _ hcam hps hor]
                exact ⟨by simp [grantsOf, startsOf, startsOf_append,
                  startsOf_stopHeld], rfl, rfl⟩

/-- Witness for C1 at a concrete failing host from the idle state. -/
theorem acquireFailureCleanup_witness :
    startsOf (startCameraC initState notFoundHost).2.2 = 0
    ∧ ((startCameraC initState notFoundHost).1).isActive = initState.isActive
    ∧ ((startCameraC initState notFoundHost).1).stream = initState.stream
    ∧ stopsOf (startCameraC initState notFoundHost).2.2
        = tracksOpt initState.stream := by
  have hmain := (acquireFailureCleanup initState notFoundHost).1 rfl
  exact ⟨hmain.1, hmain.2.1, hmain.2.2.1, hmain.2.2.2 rfl⟩

end Camera

namespace Camera

/-! ### Serialization invariant: at most one unstopped grant at any time -/

lemma foldLive_append (live : List Stream) (a b : List Ev) :
    foldLive live (a ++ b) = foldLive (foldLive live a) b := by
  simp [foldLive, List.foldl_append]

lemma okFrom_append (live : List Stream) (a b : List Ev) :
    okFrom live (a ++ b)
      = (okFrom live a && okFrom (foldLive live a) b) := by
  induction a generalizing live with
  | nil => simp [okFrom, foldLive]
  | cons ev rest ih =>
      simp [okFrom, foldLive, ih (stepLive live ev), Bool.and_assoc]

lemma stepOk_startCameraCAux (facing : FacingMode) (s : CamState) (h : Host)
    (live : List Stream) (hinv : SessionInv s.stream live) :
    okFrom live (startCameraCAux facing s h).2.2 = true
    ∧ SessionInv ((startCameraCAux facing s h).1).stream
        (foldLive live (startCameraCAux facing s h).2.2) := by
  have hlive : live = [] ∨ ∃ str, live = [str] ∧ s.stream = some str := hinv
  cases hcam : h.hasCamera
  · rw [startCameraCAux_noCam _ _ _ hcam]
    simpa [okFrom, foldLive] using hinv
  · cases hor : h.oracle h.calls with
    | grant n =>
        rw [startCameraCAux_grant _ _ _ _ hcam hor]
        rcases hlive with rfl | ⟨str, rfl, hs⟩
        · cases hs0 : s.stream <;>
            simp [stopHeld, okFrom, stepLive, foldLive, SessionInv]
        · rw [hs]
          simp [stopHeld, okFrom, stepLive, foldLive, SessionInv]
    | deny e =>
        cases e with
        | NotAllowedError =>
            rw [startCameraCAux_denyNA _ _ _ hcam hor]
            rcases hlive with rfl | ⟨str, rfl, hs⟩
            · cases hs0 : s.stream <;>
                simp [stopHeld, okFrom, stepLive, foldLive, SessionInv, hs0]
            · rw [hs]
              simp [stopHeld, okFrom, stepLive, foldLive, SessionInv, hs]
        | NotFoundError =>
            rw [startCameraCAux_denyNF _ _ _ hcam hor]
            rcases hlive with rfl | ⟨str, rfl, hs⟩
            · cases hs0 : s.stream <;>
                simp [stopHeld, okFrom, stepLive, foldLive, SessionInv, hs0]
            · rw [hs]
              simp [stopHeld, okFrom, stepLive, foldLive, SessionInv, hs]
        | NotReadableError =>
            rw [startCameraCAux_denyNR _ _ _ hcam hor]
            rcases hlive with rfl | ⟨str, rfl, hs⟩
            · cases hs0 : s.stream <;>
                simp [stopHeld, okFrom, stepLive, foldLive, SessionInv, hs0]
            · rw [hs]
              simp [stopHeld, okFrom, stepLive, foldLive, SessionInv, hs]
        | OtherError =>
            rw [startCameraCAux_denyOther _ _ _ hcam hor]
            rcases hlive with rfl | ⟨str, rfl, hs⟩
            · cases hs0 : s.stream <;>
                simp [stopHeld, okFrom, stepLive, foldLive, SessionInv, hs0]
            · rw [hs]
              simp [stopHeld, okFrom, stepLive, foldLive, SessionInv, hs]
        | OverconstrainedError =>
            cases hor2 : h.oracle (h.calls + 1) with
            | grant n =>
                rw [startCameraCAux_overGrant _ _ _ _ hcam hor hor2]
                rcases hlive with rfl | ⟨str, rfl, hs⟩
                · cases hs0 : s.stream <;>
                    simp [stopHeld, okFrom, stepLive, foldLive, SessionInv]
                · rw [hs]
                  simp [stopHeld, okFrom, stepLive, foldLive, SessionInv]
            | deny e2 =>
                rw [startCameraCAux_overDeny _ _ _ _ hcam hor hor2]
                rcases hlive with rfl | ⟨str, rfl, hs⟩
                · cases hs0 : s.stream <;>
                    simp [stopHeld, okFrom, stepLive, foldLive, SessionInv, hs0]
                · rw [hs]
                  simp [stopHeld, okFrom, stepLive, foldLive, SessionInv, hs]

lemma stepOk_runOp (s : CamState) (h : Host) (op : Op)
    (live : List Stream) (hinv : SessionInv s.stream live) :
    okFrom live (runOp s h op).2.2 = true
    ∧ SessionInv ((runOp s h op).1).stream
        (foldLive live (runOp s h op).2.2) := by
  cases op with
  | start => exact stepOk_startCameraCAux s.facingMode s h live hinv
  | stop =>
      rcases hinv with rfl | ⟨str, rfl, hs⟩
      · cases hs0 : s.stream <;>
          simp [runOp, stopCameraC, hs0, okFrom, stepLive, foldLive, SessionInv]
      · simp [runOp, stopCameraC, hs, okFrom, stepLive, foldLive, SessionInv]
  | switch =>
      by_cases hact : s.isActive = true
      · have hun : runOp s h .switch
            = startCameraCAux s.facingMode
                { s with facingMode := toggleFacing s.facingMode } h := by
          simp [runOp, switchCameraC, hact]
        rw [hun]
        exact stepOk_startCameraCAux s.facingMode
          { s with facingMode := toggleFacing s.facingMode } h live hinv
      · have hun : runOp s h .switch
            = ({ s with facingMode := toggleFacing s.facingMode }, h, []) := by
          simp [runOp, switchCameraC, hact]
        rw [hun]
        simpa [okFrom, foldLive] using hinv

lemma runOps_ok (ops : List Op) : ∀ (s : CamState) (h : Host)
    (live : List Stream), SessionInv s.stream live →
    okFrom live (runOps s h ops).2.2 = true
    ∧ SessionInv ((runOps s h ops).1).stream
        (foldLive live (runOps s h ops).2.2) := by
  induction ops with
  | nil =>
      intro s h live hinv
      simpa [runOps, okFrom, foldLive] using hinv
  | cons op rest ih =>
      intro s h live hinv
      obtain ⟨hok1, hinv1⟩ := stepOk_runOp s h op live hinv
      obtain ⟨hok2, hinv2⟩ :=
        ih (runOp s h op).1 (runOp s h op).2.1
          (foldLive live (runOp s h op).2.2) hinv1
      have hcons : runOps s h (op :: rest)
          = ((runOps (runOp s h op).1 (runOp s h op).2.1 rest).1,
             (runOps (runOp s h op).1 (runOp s h op).2.1 rest).2.1,
             (runOp s h op).2.2
               ++ (runOps (runOp s h op).1 (runOp s h op).2.1 rest).2.2) := rfl
      rw [hcons]
      constructor
      · simp only [okFrom_append, hok1, hok2, Bool.and_self]
      · simpa [foldLive_append] using hinv2

lemma stepOk_startCameraSAux (facing : FacingMode) (s : CamState) (h : Host)
    (live : List Stream) (hinv : SessionInv s.stream live) :
    okFrom live (startCameraSAux facing s h).2.2 = true
    ∧ SessionInv ((startCameraSAux facing s h).1).stream
        (foldLive live (startCameraSAux facing s h).2.2) := by
  have hlive : live = [] ∨ ∃ str, live = [str] ∧ s.stream = some str := hinv
  cases hcam : h.hasCamera
  · rw [startCameraSAux_noCam _ _ _ hcam]
    simpa [okFrom, foldLive] using hinv
  · by_cases hps : h.permState = .denied
    · rw [startCameraSAux_denied _ _ _ hcam hps]
      rcases hlive with rfl | ⟨str, rfl, hs⟩ <;>
        exact ⟨by simp [okFrom, stepLive],
          by simpa [foldLive, stepLive] using hinv⟩
    · cases hor : h.oracle h.calls with
      | grant n =>
          rw [startCameraSAux_grant _ _ _ _ hcam hps hor]
          rcases hlive with rfl | ⟨str, rfl, hs⟩
          · cases hs0 : s.stream <;>
              simp [stopHeld, okFrom, stepLive, foldLive, SessionInv]
          · rw [hs]
            simp [stopHeld, okFrom, stepLive, foldLive, SessionInv]
      | deny e =>
          cases e with
          | NotAllowedError =>
              rw [startCameraSAux_denyNA _ _ _ hcam hps hor]
              rcases hlive with rfl | ⟨str, rfl, hs⟩
              · cases hs0 : s.stream <;>
                  simp [stopHeld, okFrom, stepLive, foldLive, SessionInv, hs0]
              · rw [hs]
                simp [stopHeld, okFrom, stepLive, foldLive, SessionInv, hs]
          | NotFoundError =>
              rw [startCameraSAux_denyNF _ _ _ hcam hps hor]
              rcases hlive with rfl | ⟨str, rfl, hs⟩
              · cases hs0 : s.stream <;>
                  simp [stopHeld, okFrom, stepLive, foldLive, SessionInv, hs0]
              · rw [hs]
                simp [stopHeld, okFrom, stepLive, foldLive, SessionInv, hs]
          | NotReadableError =>
              rw [startCameraSAux_denyNR _ _ _ hcam hps hor]
              rcases hlive with rfl | ⟨str, rfl, hs⟩
              · cases hs0 : s.stream <;>
                  simp [stopHeld, okFrom, stepLive, foldLive, SessionInv, hs0]
              · rw [hs]
                simp [stopHeld, okFrom, stepLive, foldLive, SessionInv, hs]
          | OverconstrainedError =>
              rw [startCameraSAux_denyOver _ _ _ hcam hps hor]
              rcases hlive with rfl | ⟨str, rfl, hs⟩
              · cases hs0 : s.stream <;>
                  simp [stopHeld, okFrom, stepLive, foldLive, SessionInv, hs0]
              · rw [hs]
                simp [stopHeld, okFrom, stepLive, foldLive, SessionInv, hs]
          | OtherError =>
              rw [startCameraSAux_denyOther _ _ _ hcam hps hor]
              rcases hlive with rfl | ⟨str, rfl, hs⟩
              · cases hs0 : s.stream <;>
                  simp [stopHeld, okFrom, stepLive, foldLive, SessionInv, hs0]
              · rw [hs]
                simp [stopHeld, okFrom, stepLive, foldLive, SessionInv, hs]

lemma stepOk_runOpS (s : CamState) (h : Host) (op : Op)
    (live : List Stream) (hinv : SessionInv s.stream live) :
    okFrom live (runOpS s h op).2.2 = true
    ∧ SessionInv ((runOpS s h op).1).stream
        (foldLive live (runOpS s h op).2.2) := by
  cases op with
  | start => exact stepOk_startCameraSAux s.facingMode s h live hinv
  | stop =>
      rcases hinv with rfl | ⟨str, rfl, hs⟩
      · cases hs0 : s.stream <;>
          simp [runOpS, stopCameraS, hs0, okFrom, stepLive, foldLive,
            SessionInv]
      · simp [runOpS, stopCameraS, hs, okFrom, stepLive, foldLive, SessionInv]
  | switch =>
      by_cases hact : s.isActive = true
      · have hun : runOpS s h .switch
            = startCameraSAux s.facingMode
                { s with facingMode := toggleFacing s.facingMode } h := by
          simp [runOpS, switchCameraS, hact]
        rw [hun]
        exact stepOk_startCameraSAux s.facingMode
          { s with facingMode := toggleFacing s.facingMode } h live hinv
      · have hun : runOpS s h .switch
            = ({ s with facingMode := toggleFacing s.facingMode }, h, []) := by
          simp [runOpS, switchCameraS, hact]
        rw [hun]
        simpa [okFrom, foldLive] using hinv

lemma runOpsS_ok (ops : List Op) : ∀ (s : CamState) (h : Host)
    (live : List Stream), SessionInv s.stream live →
    okFrom live (runOpsS s h ops).2.2 = true
    ∧ SessionInv ((runOpsS s h ops).1).stream
        (foldLive live (runOpsS s h ops).2.2) := by
  induction ops with
  | nil =>
      intro s h live hinv
      simpa [runOpsS, okFrom, foldLive] using hinv
  | cons op rest ih =>
      intro s h live hinv
      obtain ⟨hok1, hinv1⟩ := stepOk_runOpS s h op live hinv
      obtain ⟨hok2, hinv2⟩ :=
        ih (runOpS s h op).1 (runOpS s h op).2.1
          (foldLive live (runOpS s h op).2.2) hinv1
      have hcons : runOpsS s h (op :: rest)
          = ((runOpsS (runOpS s h op).1 (runOpS s h op).2.1 rest).1,
             (runOpsS (runOpS s h op).1 (runOpS s h op).2.1 rest).2.1,
             (runOpS s h op).2.2
               ++ (runOpsS (runOpS s h op).1 (runOpS s h op).2.1 rest).2.2) :=
        rfl
      rw [hcons]
      constructor
      · simp only [okFrom_append, hok1, hok2, Bool.and_self]
      · simpa [foldLive_append] using hinv2

/-- C3: (1) over every sequence of user operations (acquire / release /
switch) on either variant — `CameraComponent` and `SimpleCameraComponent` —
from the initial state, with any host, at every point of the accumulated host
trace at most one granted stream is unstopped: two hardware grants are never
held simultaneously; (2) whenever acquire runs while a session is held, every
track of the held session is stopped strictly before the new host request: in
`CameraComponent` the first two events are the stop and the request, in
`SimpleCameraComponent` (after the pre-flight query, when it does not report
denied) the stop likewise precedes the request, and when the pre-flight
reports denied no host stream request is issued at all. -/
theorem atMostOneSession :
    (∀ (cam : Bool) (ps : PermState) (ora : Nat → GUMResult) (ops : List Op),
      okFrom [] (runOps initState (mkHost cam ps ora) ops).2.2 = true)
    ∧ (∀ (cam : Bool) (ps : PermState) (ora : Nat → GUMResult) (ops : List Op),
      okFrom [] (runOpsS initState (mkHost cam ps ora) ops).2.2 = true)
    ∧ (∀ (s : CamState) (h : Host) (str : Stream),
        s.stream = some str → h.hasCamera = true →
        ((startCameraC s h).2.2).take 2
          = [Ev.stopStream str, Ev.gumReq (getConstraintsC s.facingMode)])
    ∧ (∀ (s : CamState) (h : Host) (str : Stream),
        s.stream = some str → h.hasCamera = true →
        ¬ h.permState = .denied →
        ((startCameraS s h).2.2).take 3
          = [Ev.permQuery h.permState, Ev.stopStream str,
             Ev.gumReq (getConstraintsS s.facingMode)])
    ∧ (∀ (s : CamState) (h : Host), h.permState = .denied →
        reqsOf (startCameraS s h).2.2 = []) := by
  refine ⟨?_, ?_, ?_, ?_, ?_⟩
  · intro cam ps ora ops
    exact (runOps_ok ops initState (mkHost cam ps ora) [] (Or.inl rfl)).1
  · intro cam ps ora ops
    exact (runOpsS_ok ops initState (mkHost cam ps ora) [] (Or.inl rfl)).1
  · intro s h str hs hcam
    cases hor : h.oracle h.calls with
    | grant n =>
        rw [startCameraC, startCameraCAux_grant _ _ _ _ hcam hor, hs]
        simp [stopHeld]
    | deny e =>
        cases e with
        | NotAllowedError =>
            rw [startCameraC, startCameraCAux_denyNA _ _ _ hcam hor, hs]
            simp [stopHeld]
        | NotFoundError =>
            rw [startCameraC, startCameraCAux_denyNF _ _ _ hcam hor, hs]
            simp [stopHeld]
        | NotReadableError =>
            rw [startCameraC, startCameraCAux_denyNR _ _ _ hcam hor, hs]
            simp [stopHeld]
        | OtherError =>
            rw [startCameraC, startCameraCAux_denyOther _ _ _ hcam hor, hs]
            simp [stopHeld]
        | OverconstrainedError =>
            cases hor2 : h.oracle (h.calls + 1) with
            | grant n =>
                rw [startCameraC,
                  startCameraCAux_overGrant _ _ _ _ hcam hor hor2, hs]
                simp [stopHeld]
            | deny e2 =>
                rw [startCameraC,
                  startCameraCAux_overDeny _ _ _ _ hcam hor hor2, hs]
                simp [stopHeld]
  · intro s h str hs hcam hps
    cases hor : h.oracle h.calls with
    | grant n =>
        rw [startCameraS, startCameraSAux_grant _ _ _ _ hcam hps hor, hs]
        simp [stopHeld]
    | deny e =>
        cases e with
        | NotAllowedError =>
            rw [startCameraS, startCameraSAux_denyNA _ _ _ hcam hps hor, hs]
            simp [stopHeld]
        | NotFoundError =>
            rw [startCameraS, startCameraSAux_denyNF _ _ _ hcam hps hor, hs]
            simp [stopHeld]
        | NotReadableError =>
            rw [startCameraS, startCameraSAux_denyNR _ _ _ hcam hps hor, hs]
            simp [stopHeld]
        | OverconstrainedError =>
            rw [startCameraS, startCameraSAux_denyOver _ _ _ hcam hps hor, hs]
            simp [stopHeld]
        | OtherError =>
            rw [startCameraS, startCameraSAux_denyOther _ _ _ hcam hps hor, hs]
            simp [stopHeld]
  · intro s h hps
    cases hcam : h.hasCamera
    · rw [startCameraS, startCameraSAux_noCam _ _ _ hcam]
      simp [reqsOf]
    · rw [startCameraS, startCameraSAux_denied _ _ _ hcam hps]
      simp [reqsOf]

/-- Witness for C3 at concrete operation sequences on both variants and
concrete active states. -/
theorem atMostOneSession_witness :
    okFrom []
        (runOps initState
          (mkHost true PermState.prompt (fun _ => GUMResult.grant 1))
          [Op.start, Op.switch, Op.stop]).2.2 = true
    ∧ okFrom []
        (runOpsS initState
          (mkHost true PermState.prompt (fun _ => GUMResult.grant 1))
          [Op.start, Op.switch, Op.stop]).2.2 = true
    ∧ ((startCameraC frontActiveState grantingHost).2.2).take 2
        = [Ev.stopStream str01,
           Ev.gumReq (getConstraintsC frontActiveState.facingMode)]
    ∧ ((startCameraS frontActiveState grantingHost).2.2).take 3
        = [Ev.permQuery grantingHost.permState, Ev.stopStream str01,
           Ev.gumReq (getConstraintsS frontActiveState.facingMode)]
    ∧ reqsOf (startCameraS initState
        { grantingHost with permState := PermState.denied }).2.2 = [] :=
  ⟨atMostOneSession.1 true PermState.prompt (fun _ => GUMResult.grant 1)
      [Op.start, Op.switch, Op.stop],
   atMostOneSession.2.1 true PermState.prompt (fun _ => GUMResult.grant 1)
      [Op.start, Op.switch, Op.stop],
   atMostOneSession.2.2.1 frontActiveState grantingHost str01 rfl rfl,
   atMostOneSession.2.2.2.1 frontActiveState grantingHost str01 rfl rfl
      (by decide),
   atMostOneSession.2.2.2.2 initState
      { grantingHost with permState := PermState.denied } rfl⟩

end Camera
